import Mathlib

/-!
Shallow embedding of the ink! DAO governor contract
(contracts/dao/lib.rs, module dao).

Machine integers of the source are modelled as Nat (Balance is u128,
timestamps and proposal ids are u64, quorum is u8); none of the claims
under study hinges on wrap-around. Rust panics that the source can hit
(Option.unwrap on None, division by zero) are modelled explicitly by the
trap outcome. The three ink storage Mappings are modelled as functions
into Option (the vote-receipt map, whose value type is unit, as a
Boolean presence function). Cross-contract calls to the governance token
(balance_of, total_supply, PSP22 transfer) are modelled through an
environment record, as is the block timestamp and the caller.
-/

namespace Dao

abbrev AccountId := Nat
abbrev Balance := Nat
abbrev Timestamp := Nat
abbrev ProposalId := Nat

/-- VoteType from the source, variants in source order. -/
inductive VoteType
  | Against
  | For
deriving DecidableEq

/-- GovernorError from the source: the closed set of nine error kinds. -/
inductive GovernorError
  | ProposalNotFound
  | ProposalAlreadyExecuted
  | QuorumNotReached
  | ProposalNotAccepted
  | AmountShouldNotBeZero
  | DurationError
  | VotePeriodEnded
  | AlreadyVoted
  | TxFailed
deriving DecidableEq

/-- Proposal struct from the source (field to_account is named to in the source: the beneficiary; to is a reserved token in this Lean setup). -/
structure Proposal where
  to_account : AccountId
  vote_start : Timestamp
  vote_end : Timestamp
  executed : Bool
  amount : Balance
deriving DecidableEq

/-- ProposalVote struct from the source: the per-proposal tally. -/
structure ProposalVote where
  for_votes : Nat
  against_votes : Nat
deriving DecidableEq

def ONE_MINUTE : Nat := 60

/-- The contract storage struct Governor. The Mapping fields are
functions; proposal_votes is keyed by the whole Proposal value, exactly
as in the source. -/
structure Governor where
  proposals : ProposalId → Option Proposal
  proposal_votes : Proposal → Option ProposalVote
  votes : ProposalId → AccountId → Bool
  next_proposal_id : ProposalId
  quorum : Nat
  governance_token : AccountId

/-- The execution environment of one message call: block timestamp,
caller, and the governance-token oracle (balances, total supply, and
whether the PSP22 transfer call succeeds). -/
structure Env where
  block_timestamp : Timestamp
  caller : AccountId
  balances : AccountId → Balance
  total_supply : Balance
  transfer_ok : Bool

/-- Result of one message call: normal return value, a GovernorError
returned as a value, or trap, modelling a Rust panic (unwrap on None,
expect, division by zero). -/
inductive Outcome (α : Type)
  | ok : α → Outcome α
  | err : GovernorError → Outcome α
  | trap : Outcome α
deriving DecidableEq

/-- Constructor Governor.new: empty mappings, counter starts at 0
(Default for u64). -/
def Governor.new (governance_token : AccountId) (quorum : Nat) : Governor :=
  { proposals := fun _ => none
    proposal_votes := fun _ => none
    votes := fun _ _ => false
    next_proposal_id := 0
    quorum := quorum
    governance_token := governance_token }

/-- Mapping.insert on the proposals map. -/
def insertProposal (m : ProposalId → Option Proposal) (k : ProposalId)
    (v : Proposal) : ProposalId → Option Proposal :=
  fun pid => if pid = k then some v else m pid

/-- Mapping.insert on the proposal_votes map (keyed by Proposal values). -/
def insertProposalVote (m : Proposal → Option ProposalVote) (k : Proposal)
    (v : ProposalVote) : Proposal → Option ProposalVote :=
  fun q => if q = k then some v else m q

/-- Mapping.insert of a unit value into the votes (receipt) map. -/
def insertReceipt (m : ProposalId → AccountId → Bool) (pid : ProposalId)
    (acc : AccountId) : ProposalId → AccountId → Bool :=
  fun i a => if i = pid ∧ a = acc then true else m i a

/-- Message get_proposal: the if-let over proposals.get. -/
def get_proposal (s : Governor) (proposal_id : ProposalId) : Option Proposal :=
  match s.proposals proposal_id with
  | some p => some p
  | none => none

/-- Private helper get_proposal_votes. It starts with
get_proposal(proposal_id).unwrap(), which panics (trap) when the
proposal is absent; otherwise it returns the optional tally found under
the Proposal-valued key. -/
def get_proposal_votes (s : Governor) (proposal_id : ProposalId) :
    Outcome (Option ProposalVote) :=
  match get_proposal s proposal_id with
  | none => .trap
  | some p => .ok (s.proposal_votes p)

/-- Private helper balance_of_acc: cross-contract balance_of query,
read from the environment. -/
def balance_of_acc (env : Env) (account_id : AccountId) : Balance :=
  env.balances account_id

/-- Private helper get_total_supply: cross-contract total_supply query,
read from the environment. -/
def get_total_supply (env : Env) : Balance :=
  env.total_supply

/-- The weight expression of vote, exactly as written in the source:
caller_balance / total_balance * 100, with the floor division first.
Callers must rule out total_balance = 0 (in Rust that division panics). -/
def voteWeight (caller_balance total_balance : Balance) : Nat :=
  caller_balance / total_balance * 100

/-- Builds the Proposal value that propose stores. -/
def mkProposal (env : Env) (to_acc : AccountId) (amount : Balance)
    (duration : Nat) : Proposal :=
  { to_account := to_acc
    vote_start := env.block_timestamp
    vote_end := env.block_timestamp + duration * ONE_MINUTE
    executed := false
    amount := amount }

/-- Message propose. Checks amount <= 0 then duration <= 0, then
pre-increments the counter, inserts the Proposal under the new id and a
zero tally under the Proposal value itself. -/
def propose (s : Governor) (env : Env) (to_acc : AccountId) (amount : Balance)
    (duration : Nat) : Outcome Unit × Governor :=
  if amount ≤ 0 then
    (.err .AmountShouldNotBeZero, s)
  else if duration ≤ 0 then
    (.err .DurationError, s)
  else
    let proposal := mkProposal env to_acc amount duration
    let nextId := s.next_proposal_id + 1
    let s1 := { s with
      next_proposal_id := nextId
      proposals := insertProposal s.proposals nextId proposal }
    let s2 := { s1 with
      proposal_votes := insertProposalVote s1.proposal_votes proposal ⟨0, 0⟩ }
    (.ok (), s2)

/-- The tail of vote after the existence and period checks: the
AlreadyVoted check, the receipt insert, the oracle queries, the weight,
then get_proposal(proposal_id).unwrap() (trap when absent) and the tally
update. The receipt is inserted before the weight is resolved, so the
traps that follow happen on the state that already holds the receipt. -/
def voteTail (s : Governor) (env : Env) (proposal_id : ProposalId)
    (v : VoteType) : Outcome Unit × Governor :=
  let caller := env.caller
  if s.votes proposal_id caller then
    (.err .AlreadyVoted, s)
  else
    let s1 := { s with votes := insertReceipt s.votes proposal_id caller }
    let caller_balance := balance_of_acc env caller
    let total_balance := get_total_supply env
    if total_balance = 0 then
      (.trap, s1)
    else
      let weight := voteWeight caller_balance total_balance
      match get_proposal s1 proposal_id with
      | none => (.trap, s1)
      | some p =>
        match s1.proposal_votes p with
        | none => (.trap, s1)
        | some votes =>
          let votes2 :=
            match v with
            | .Against => { votes with against_votes := votes.against_votes + weight }
            | .For => { votes with for_votes := votes.for_votes + weight }
          (.ok (), { s1 with
            proposal_votes := insertProposalVote s1.proposal_votes p votes2 })

/-- Message vote. The first statement of the source is
if self.proposals.contains(proposal_id) return ProposalNotFound — the
condition is on containment, not on absence. Then the match on
get_proposal checks executed and the vote period when a proposal is
found, and falls through to the tail otherwise. -/
def vote (s : Governor) (env : Env) (proposal_id : ProposalId)
    (v : VoteType) : Outcome Unit × Governor :=
  if (s.proposals proposal_id).isSome then
    (.err .ProposalNotFound, s)
  else
    match get_proposal s proposal_id with
    | some p =>
      if p.executed = true then
        (.err .ProposalAlreadyExecuted, s)
      else if p.vote_end < env.block_timestamp then
        (.err .VotePeriodEnded, s)
      else
        voteTail s env proposal_id v
    | none => voteTail s env proposal_id v

/-- The quorum and majority gate of execute, exactly as in the source:
QuorumNotReached when against + for < quorum, then ProposalNotAccepted
when against < for. -/
def executeGate (quorum : Nat) (votes : ProposalVote) : Option GovernorError :=
  if votes.against_votes + votes.for_votes < quorum then
    some .QuorumNotReached
  else if votes.against_votes < votes.for_votes then
    some .ProposalNotAccepted
  else
    none

/-- The tail of execute after the gate: p.executed = true mutates only
the local copy of the Proposal (the source never inserts it back into
the proposals map), then the PSP22 transfer call, whose failure is
mapped to TxFailed. The storage is returned unchanged. -/
def executeTail (s : Governor) (env : Env) (p : Proposal) :
    Outcome Unit × Governor :=
  let _localOnly := { p with executed := true }
  if env.transfer_ok then
    (.ok (), s)
  else
    (.err .TxFailed, s)

/-- Message execute. As in vote, the first statement returns
ProposalNotFound when the proposal IS contained; the following
get_proposal(proposal_id).unwrap() traps when it is absent. The gate
runs only when get_proposal_votes finds a tally (the if-let in the
source); otherwise control falls through to the transfer. -/
def execute (s : Governor) (env : Env) (proposal_id : ProposalId) :
    Outcome Unit × Governor :=
  if (s.proposals proposal_id).isSome then
    (.err .ProposalNotFound, s)
  else
    match get_proposal s proposal_id with
    | none => (.trap, s)
    | some p =>
      if p.executed = true then
        (.err .ProposalAlreadyExecuted, s)
      else
        match get_proposal_votes s proposal_id with
        | .trap => (.trap, s)
        | .err e => (.err e, s)
        | .ok (some votes) =>
          match executeGate s.quorum votes with
          | some e => (.err e, s)
          | none => executeTail s env p
        | .ok none => executeTail s env p

/-!
Concrete fixtures used to evaluate the messages on explicit states.
-/

/-- A standard call environment: timestamp 10, caller 7, every account
holding balance 50 of a total supply of 100, transfer succeeding. -/
def stdEnv : Env :=
  { block_timestamp := 10
    caller := 7
    balances := fun _ => 50
    total_supply := 100
    transfer_ok := true }

/-- The standard environment with a zero total supply. -/
def zeroSupplyEnv : Env :=
  { stdEnv with total_supply := 0 }

/-- A freshly constructed governor with quorum 50 and no proposals. -/
def emptyGov : Governor :=
  Governor.new 3 50

/-- A live proposal: not executed, voting open until timestamp 600. -/
def pAccepted : Proposal :=
  { to_account := 2, vote_start := 0, vote_end := 600
    executed := false, amount := 100 }

/-- A governor holding pAccepted under id 1 with a tally of 60 for and
0 against: the tally meets the quorum of 50 and has a strict for
majority. -/
def sAccepted : Governor :=
  { proposals := insertProposal (fun _ => none) 1 pAccepted
    proposal_votes := insertProposalVote (fun _ => none) pAccepted ⟨60, 0⟩
    votes := fun _ _ => false
    next_proposal_id := 1
    quorum := 50
    governance_token := 3 }

/-- A second live proposal, distinct from pAccepted. -/
def pOpen : Proposal :=
  { to_account := 4, vote_start := 0, vote_end := 600
    executed := false, amount := 100 }

/-- A governor holding pOpen under id 1 with a zero tally and no
receipts: an open proposal a fresh caller should be able to vote on. -/
def sOpen : Governor :=
  { proposals := insertProposal (fun _ => none) 1 pOpen
    proposal_votes := insertProposalVote (fun _ => none) pOpen ⟨0, 0⟩
    votes := fun _ _ => false
    next_proposal_id := 1
    quorum := 50
    governance_token := 3 }

/-- sOpen with a vote receipt already recorded for (1, caller 7). -/
def sVoted : Governor :=
  { sOpen with votes := insertReceipt (fun _ _ => false) 1 7 }

/-- A proposal value shared by two ids in sShared. -/
def pShared : Proposal :=
  { to_account := 5, vote_start := 0, vote_end := 120
    executed := false, amount := 30 }

/-- A governor in which ids 1 and 2 are both bound to pShared, whose
single tally holds 3 for and 4 against. -/
def sShared : Governor :=
  { proposals := fun pid => if pid = 1 ∨ pid = 2 then some pShared else none
    proposal_votes := insertProposalVote (fun _ => none) pShared ⟨3, 4⟩
    votes := fun _ _ => false
    next_proposal_id := 2
    quorum := 50
    governance_token := 3 }

/-- The environment under which propose rebuilds exactly pShared from
beneficiary 5, amount 30, duration 2. -/
def envShared : Env :=
  { block_timestamp := 0
    caller := 7
    balances := fun _ => 50
    total_supply := 100
    transfer_ok := true }

/-!
Claim theorems.
-/

/-- C1: the claim says a first execute on a proposal whose tally meets
the quorum and majority gates succeeds, persists executed = true and
transfers once. On the code this fails: in sAccepted, proposal 1 exists,
its tally is 60 for / 0 against against a quorum of 50, yet execute
returns ProposalNotFound and leaves the state unchanged, because the
containment check that opens execute is inverted (it rejects exactly
when the proposal IS present); no transfer and no flag update happen. -/
theorem execute_accepted_returns_not_found :
    execute sAccepted stdEnv 1 = (.err .ProposalNotFound, sAccepted) := by
  rfl

/-- C2: the claim says vote fails with ProposalNotFound exactly on the
ids that are absent from the store. The code inverts this both ways: on
emptyGov (id 1 absent) vote traps at the unwrap instead of returning
ProposalNotFound, and on sAccepted (id 1 present) vote returns
ProposalNotFound. -/
theorem vote_not_found_inverted :
    (vote emptyGov stdEnv 1 .For).1 = .trap ∧
    (vote sAccepted stdEnv 1 .For).1 = .err .ProposalNotFound := by
  exact ⟨rfl, rfl⟩

/-- C3: the claim says that past the quorum gate, ProposalNotAccepted is
returned exactly when for_weight ≤ against_weight. The gate in the code
compares the other way around: a 60 for / 0 against tally (a strict for
majority) is rejected with ProposalNotAccepted, while a 10 for /
60 against tally (an against majority) passes the gate. -/
theorem majority_gate_inverted :
    executeGate 50 ⟨60, 0⟩ = some .ProposalNotAccepted ∧
    executeGate 50 ⟨10, 60⟩ = none := by
  exact ⟨rfl, rfl⟩

/-- C4: the claim says propose, vote and execute always return errors as
values and never panic. The code can panic: vote on an absent id traps
at the unwrap of get_proposal, execute on an absent id traps at its
unwrap, and vote with a zero total supply traps on the division. -/
theorem vote_execute_can_trap :
    (vote emptyGov stdEnv 1 .For).1 = .trap ∧
    (execute emptyGov stdEnv 1).1 = .trap ∧
    (vote emptyGov zeroSupplyEnv 1 .For).1 = .trap := by
  exact ⟨rfl, rfl, rfl⟩

/-- C5: the claim says a vote on an existing, open, not-executed
proposal by a fresh voter succeeds and updates the chosen tally side. On
the code it fails: in sOpen, proposal 1 exists, is not executed, the
clock (10) is within the period (600) and caller 7 holds no receipt, yet
vote returns ProposalNotFound for both choices and records nothing,
because the existence check is inverted. -/
theorem vote_open_proposal_rejected :
    vote sOpen stdEnv 1 .For = (.err .ProposalNotFound, sOpen) ∧
    vote sOpen stdEnv 1 .Against = (.err .ProposalNotFound, sOpen) := by
  exact ⟨rfl, rfl⟩

/-- C6: the claim says execute on an existing, non-executed proposal
whose tally is below the quorum fails with QuorumNotReached. On the code
it fails with ProposalNotFound instead: in sOpen the tally is 0 + 0,
below the quorum of 50, but the inverted containment check rejects the
existing proposal before the quorum gate can run. -/
theorem execute_below_quorum_not_found :
    execute sOpen stdEnv 1 = (.err .ProposalNotFound, sOpen) := by
  rfl

/-- C7: the claim says a second vote by an account that already holds a
receipt fails with AlreadyVoted for either choice. On the code, whenever
the proposal exists (the only way a receipt can matter), the inverted
containment check returns ProposalNotFound first: in sVoted, caller 7
holds a receipt for proposal 1, yet both vote calls return
ProposalNotFound, not AlreadyVoted. -/
theorem second_vote_not_already_voted :
    vote sVoted stdEnv 1 .For = (.err .ProposalNotFound, sVoted) ∧
    vote sVoted stdEnv 1 .Against = (.err .ProposalNotFound, sVoted) := by
  exact ⟨rfl, rfl⟩

/-- C8: the voting weight is the divide-before-multiply expression
caller_balance / total_balance * 100, and consequently any balance whose
hundredfold is still below a positive total supply (a holder of under
one percent) gets weight zero. -/
theorem weight_divides_before_multiplying (b s : Nat) (_h0 : 0 < s)
    (h1 : b * 100 < s) :
    voteWeight b s = b / s * 100 ∧ voteWeight b s = 0 := by
  have hb : b < s := by omega
  exact ⟨rfl, by simp [voteWeight, Nat.div_eq_of_lt hb]⟩

/-- Witness for C8 at balance 1 and supply 200: a half-percent holder
gets weight zero. -/
theorem weight_divides_before_multiplying_app :
    0 < 200 ∧ 1 * 100 < 200 ∧ voteWeight 1 200 = 0 :=
  ⟨by decide, by decide,
    (weight_divides_before_multiplying 1 200 (by decide) (by decide)).2⟩

/-- C9: propose rejects amount ≤ 0 with AmountShouldNotBeZero and (for
positive amounts) duration ≤ 0 with DurationError, in both cases
returning the state unchanged; otherwise it succeeds, increments the id
counter by exactly one (the counter of a fresh governor being 0, ids run
sequentially from 1), stores exactly one new Proposal with
executed = false under the new id, leaves every other id unchanged,
stores exactly one zero tally under that Proposal value, leaves every
other tally key unchanged, and leaves the receipts unchanged. -/
theorem propose_spec (s : Governor) (env : Env) (acc : AccountId)
    (amount : Balance) (duration : Nat) :
    (∀ g q, (Governor.new g q).next_proposal_id = 0) ∧
    (amount ≤ 0 → propose s env acc amount duration = (.err .AmountShouldNotBeZero, s)) ∧
    (¬ amount ≤ 0 → duration ≤ 0 →
      propose s env acc amount duration = (.err .DurationError, s)) ∧
    (¬ amount ≤ 0 → ¬ duration ≤ 0 →
      (propose s env acc amount duration).1 = .ok () ∧
      (propose s env acc amount duration).2.next_proposal_id = s.next_proposal_id + 1 ∧
      (propose s env acc amount duration).2.proposals (s.next_proposal_id + 1) =
        some (mkProposal env acc amount duration) ∧
      (mkProposal env acc amount duration).executed = false ∧
      (∀ pid, pid ≠ s.next_proposal_id + 1 →
        (propose s env acc amount duration).2.proposals pid = s.proposals pid) ∧
      (propose s env acc amount duration).2.proposal_votes
        (mkProposal env acc amount duration) = some ⟨0, 0⟩ ∧
      (∀ q, q ≠ mkProposal env acc amount duration →
        (propose s env acc amount duration).2.proposal_votes q = s.proposal_votes q) ∧
      (propose s env acc amount duration).2.votes = s.votes) := by
  refine ⟨fun g q => rfl, fun ha => ?_, fun ha hd => ?_, fun ha hd => ?_⟩
  · have ha0 : amount = 0 := Nat.le_zero.mp ha
    simp [propose, ha0]
  · have ha0 : ¬ amount = 0 := fun h => ha (Nat.le_of_eq h)
    have hd0 : duration = 0 := Nat.le_zero.mp hd
    simp [propose, ha0, hd0]
  · have ha0 : ¬ amount = 0 := fun h => ha (Nat.le_of_eq h)
    have hd0 : ¬ duration = 0 := fun h => hd (Nat.le_of_eq h)
    refine ⟨?_, ?_, ?_, rfl, ?_, ?_, ?_, ?_⟩
    · simp [propose, ha0, hd0]
    · simp [propose, ha0, hd0]
    · simp [propose, ha0, hd0, insertProposal]
    · intro pid hpid
      simp [propose, ha0, hd0, insertProposal, if_neg hpid]
    · simp [propose, ha0, hd0, insertProposalVote]
    · intro q hq
      simp [propose, ha0, hd0, insertProposalVote, if_neg hq]
    · simp [propose, ha0, hd0]

/-- Witness for C9: the two rejections and a success on emptyGov, with
the new proposal appearing under id 1. -/
theorem propose_spec_app :
    propose emptyGov stdEnv 9 0 5 = (.err .AmountShouldNotBeZero, emptyGov) ∧
    propose emptyGov stdEnv 9 7 0 = (.err .DurationError, emptyGov) ∧
    (propose emptyGov stdEnv 9 7 5).1 = .ok () ∧
    (propose emptyGov stdEnv 9 7 5).2.next_proposal_id = 1 := by
  refine ⟨?_, ?_, ?_, ?_⟩
  · exact (propose_spec emptyGov stdEnv 9 0 5).2.1 (by decide)
  · exact (propose_spec emptyGov stdEnv 9 7 0).2.2.1 (by decide) (by decide)
  · exact ((propose_spec emptyGov stdEnv 9 7 5).2.2.2 (by decide) (by decide)).1
  · exact ((propose_spec emptyGov stdEnv 9 7 5).2.2.2 (by decide) (by decide)).2.1

/-- C10: the tally map is keyed by the whole Proposal value, not the id.
If two ids are bound to the same Proposal value p, then (i) both ids
observe the same tally through get_proposal_votes; (ii) writing a tally
under p, exactly as the tally update of vote does, changes the tally
observed through both ids at once; (iii) a later successful propose that
rebuilds the same Proposal value p overwrites the shared tally with
zero. -/
theorem tally_keyed_by_fields (s : Governor) (id1 id2 : ProposalId)
    (p : Proposal) (h1 : s.proposals id1 = some p)
    (h2 : s.proposals id2 = some p) :
    get_proposal_votes s id1 = get_proposal_votes s id2 ∧
    (∀ votes2 : ProposalVote,
      get_proposal_votes
        { s with proposal_votes := insertProposalVote s.proposal_votes p votes2 }
        id1 = .ok (some votes2) ∧
      get_proposal_votes
        { s with proposal_votes := insertProposalVote s.proposal_votes p votes2 }
        id2 = .ok (some votes2)) ∧
    (∀ env acc amount duration, ¬ amount ≤ 0 → ¬ duration ≤ 0 →
      mkProposal env acc amount duration = p →
      (propose s env acc amount duration).2.proposal_votes p = some ⟨0, 0⟩) := by
  refine ⟨?_, ?_, ?_⟩
  · simp [get_proposal_votes, get_proposal, h1, h2]
  · intro votes2
    constructor <;> simp [get_proposal_votes, get_proposal, h1, h2, insertProposalVote]
  · intro env acc amount duration ha hd hp
    have ha0 : ¬ amount = 0 := fun h => ha (Nat.le_of_eq h)
    have hd0 : ¬ duration = 0 := fun h => hd (Nat.le_of_eq h)
    simp [propose, ha0, hd0, insertProposalVote, hp]

/-- Witness for C10 on sShared, where ids 1 and 2 share pShared: shared
observation, shared visibility of a write of an 8 for / 9 against tally,
and the reset to zero by a propose that rebuilds pShared. -/
theorem tally_keyed_by_fields_app :
    sShared.proposals 1 = some pShared ∧
    sShared.proposals 2 = some pShared ∧
    get_proposal_votes sShared 1 = get_proposal_votes sShared 2 ∧
    get_proposal_votes
      { sShared with
        proposal_votes := insertProposalVote sShared.proposal_votes pShared ⟨8, 9⟩ }
      2 = .ok (some ⟨8, 9⟩) ∧
    (propose sShared envShared 5 30 2).2.proposal_votes pShared = some ⟨0, 0⟩ := by
  refine ⟨rfl, rfl, ?_, ?_, ?_⟩
  · exact (tally_keyed_by_fields sShared 1 2 pShared rfl rfl).1
  · exact ((tally_keyed_by_fields sShared 1 2 pShared rfl rfl).2.1 ⟨8, 9⟩).2
  · exact (tally_keyed_by_fields sShared 1 2 pShared rfl rfl).2.2 envShared 5 30 2
      (by decide) (by decide) rfl

end Dao
